import Mathlib

/-!
Verification of the prediction-pipeline core of this repository
(`api/services/prediction_queue.py`, `api/services/ai.py`,
`api/services/openai.py`, `api/services/perplexity.py`,
`api/models/templates.py`, `api/models/predictions.py`).

The Python code is shallowly embedded: every service method becomes a pure
Lean function, Python dict mutation becomes explicit state passing (the
caller-visible mapping after a call is returned alongside the call result),
and the nondeterministic outcomes of outbound provider calls are supplied by
an explicit `Oracles` record.  Outbound calls are recorded in a `Log` so that
call-count properties can be stated.  `request_id` fields (fresh UUIDs),
timestamps inside envelopes, logging statements, and prompt metadata that no
claim mentions are not modelled; where a modelling simplification is made it
is noted next to the definition it concerns.
-/

/-- Model of `models/predictions.py`: `PredictionStatus(str, Enum)`. -/
inductive PredictionStatus where
  | PENDING
  | ANALYZING
  | RESEARCHING
  | FINDING_TICKERS
  | CREATING_STRATEGY
  | COMPLETED
  | FAILED
deriving DecidableEq, Repr

/-- A Python `dict` of template vars (string keys, string values),
modelled as an insertion-ordered association list, matching Python dict
iteration order. -/
abbrev Vars := List (String × String)

/-- Python `vars.get(k)` / `vars[k]` lookup. -/
def vget (vs : Vars) (k : String) : Option String :=
  match vs with
  | [] => none
  | (k₂, v) :: rest => if k₂ = k then some v else vget rest k

/-- Python `vars[k] = v`: overwrite in place if the key exists
(keeping its position), append otherwise. -/
def vset (vs : Vars) (k v : String) : Vars :=
  match vs with
  | [] => [(k, v)]
  | (k₂, w) :: rest => if k₂ = k then (k₂, v) :: rest else (k₂, w) :: vset rest k v

/-- Python `k in vars`. -/
def hasKey (vs : Vars) (k : String) : Bool :=
  (vget vs k).isSome

/-- One entry of `TEMPLATES` in `api/models/templates.py`.  The pydantic
response model and the literal prompt texts are not modelled (no claim
depends on them); `placeholders` lists the `{...}` names referenced by the
`user_prompt_template`, which is what `str.format` consumes. -/
structure Template where
  tname : String
  required_vars : List String
  optional_vars : List (String × String)
  placeholders : List String
deriving DecidableEq, Repr

/-- Constant from `templates.py`: `industry_list = json.dumps(industry_data["industries"], indent=2)`.
Modelled as an opaque constant string; no claim inspects its content. -/
def industry_list : String := "[industry list json]"

/-- The `TEMPLATES` entry named prediction_analysis. -/
def prediction_analysis_template : Template :=
  ⟨"prediction_analysis", ["prediction_text"], [("industry_list", industry_list)],
    ["prediction_text", "industry_list"]⟩

/-- The `TEMPLATES` entry named ticker_finder. -/
def ticker_finder_template : Template :=
  ⟨"ticker_finder", ["prediction_text", "prediction_analysis"],
    [("web_research", ""), ("industry_list", industry_list)],
    ["prediction_text", "prediction_analysis", "web_research", "industry_list"]⟩

/-- The `TEMPLATES` entry named investment_strategy. -/
def investment_strategy_template : Template :=
  ⟨"investment_strategy", ["prediction_text", "prediction_analysis", "relevant_tickers"],
    [("market_research", ""), ("stock_data", "")],
    ["prediction_text", "prediction_analysis", "relevant_tickers", "market_research", "stock_data"]⟩

/-- The normalized success/error envelope returned by the Structured-Output
Invoker (`process_template`) and by the `AIService` wrappers: Python dicts
`{"success": ..., "error": ..., "result": ...}`.  A success envelope has
`error = none` (the source omits the key), a failure envelope has
`result = none`. -/
structure Envl (α : Type) where
  success : Bool
  error : Option String
  result : Option α
deriving DecidableEq, Repr

/-- One recorded call to the Structured-Output provider: template name, the
(validated) vars the prompt was rendered from, and the model. -/
structure OpenAICall where
  template_name : String
  vars : Vars
  model : String
deriving DecidableEq, Repr

/-- One recorded call to the Research provider (`PerplexityService.search`). -/
structure ResearchCall where
  query : String
  model : String
deriving DecidableEq, Repr

/-- The log of outbound provider calls made during a run, in order. -/
structure Log where
  openai : List OpenAICall
  research : List ResearchCall
deriving DecidableEq, Repr

/-- Appends a Structured-Output provider call to the log, if one was made. -/
def push_openai (log : Log) (c : Option OpenAICall) : Log :=
  match c with
  | some call => { log with openai := log.openai ++ [call] }
  | none => log

/-- Model of `openai.py` `OpenAITemplateService.validate_variables`: raises
(`Except.error`) when a required variable is missing, otherwise inserts the
default of every optional variable that is absent into the caller's mapping
and returns that (same, mutated) mapping.  The source computes the missing
names as a Python set difference; the error message joins them in
`required_vars` order here, set iteration order being unspecified. -/
def validate_variables (template : Template) (vars : Vars) : Except String Vars :=
  let missing_vars := template.required_vars.filter (fun v => !(hasKey vars v))
  if missing_vars.isEmpty then
    Except.ok (template.optional_vars.foldl
      (fun vs p => if hasKey vs p.1 then vs else vset vs p.1 p.2) vars)
  else
    Except.error ("Missing required variables: " ++ String.intercalate ", " missing_vars)

/-- Model of `openai.py` `OpenAITemplateService.format_prompt`:
`template["user_prompt_template"].format(**vars)` raises `KeyError` on
the first placeholder missing from the mapping (re-raised as `ValueError`);
otherwise it renders the prompt.  The rendered text is modelled as the
placeholder values joined in skeleton order — the literal text between
placeholders is not modelled (no claim depends on the rendered string). -/
def format_prompt (template : Template) (vars : Vars) : Except String String :=
  match template.placeholders.find? (fun p => !(hasKey vars p)) with
  | some p => Except.error ("Error formatting prompt template: " ++ p)
  | none =>
      Except.ok (String.intercalate "\n"
        (template.placeholders.map (fun p => (vget vars p).getD "")))

/-- Model of `openai.py` `OpenAITemplateService.process_template`.  Here `outcome` is the
environment-chosen result of the provider interaction (client construction +
`client.beta.chat.completions.parse` + `.parsed.dict()`); `Except.error e`
stands for any exception out of that interaction, caught by the method's
`except` clause (`error = str(e)`).  Returns the envelope, the caller's
vars mapping as it is after the call (Python passes the dict by
reference and `validate_variables` mutates it), and the provider call made,
if the control flow reached the provider.  `get_template` raising on an
unknown name is not modelled: the three call sites below use registered
names only. -/
def process_template {α : Type} (outcome : Except String α) (template : Template)
    (vars : Vars) (model : String) : Envl α × Vars × Option OpenAICall :=
  match validate_variables template vars with
  | Except.error e =>
      -- the ValueError is raised before any mutation; caller's dict unchanged
      (⟨false, some e, none⟩, vars, none)
  | Except.ok validated_vars =>
      match format_prompt template validated_vars with
      | Except.error e =>
          -- defaults were already inserted; the mutation persists
          (⟨false, some e, none⟩, validated_vars, none)
      | Except.ok _formatted_prompt =>
          match outcome with
          | Except.ok parsed => (⟨true, none, some parsed⟩, validated_vars,
              some ⟨template.tname, validated_vars, model⟩)
          | Except.error e => (⟨false, some e, none⟩, validated_vars,
              some ⟨template.tname, validated_vars, model⟩)

/-- Presence or absence of a key in a Python dict whose key set varies
between branches. -/
inductive DictField (α : Type) where
  | absent
  | present (v : α)
deriving DecidableEq, Repr

/-- The dict returned by `PerplexityService.search` in `perplexity.py`.
`content` carries `Option String` because the extracted
`choices[0].message.content` can itself be JSON `null`; `request_id` (a
fresh UUID), `model` and `raw_response` are not modelled. -/
structure SearchEnvelope where
  success : Bool
  content : DictField (Option String)
  error : DictField String
  details : DictField (Option String)
deriving DecidableEq, Repr

/-- The environment-chosen outcome of the HTTP interaction inside
`PerplexityService.search`: a 2xx response (with the extracted
`choices[0].message.content`, `none` when that value is JSON null), an
`httpx.HTTPStatusError`, an `httpx.RequestError`, or any other exception. -/
inductive HttpOutcome where
  | ok (content : Option String)
  | statusError (code : Nat) (body : Option String)
  | requestError (msg : String)
  | unexpected (msg : String)
deriving DecidableEq, Repr

/-- Model of `perplexity.py` `PerplexityService.search`.  The call is recorded in the
log in every branch (the request is issued before any of the handlers can
fire).  A missing API key raises `ConfigurationException` before the `try`
and returns no envelope at all; that path is outside the envelope-shaped
outcomes this function models. -/
def PerplexityService.search (outcome : HttpOutcome) (query : String) (model : String)
    (log : Log) : SearchEnvelope × Log :=
  let log₂ : Log := { log with research := log.research ++ [⟨query, model⟩] }
  match outcome with
  | HttpOutcome.ok c =>
      ({ success := true, content := DictField.present c, error := DictField.absent,
         details := DictField.absent }, log₂)
  | HttpOutcome.statusError code body =>
      ({ success := false, content := DictField.absent,
         error := DictField.present ("HTTP error: " ++ toString code),
         details := DictField.present body }, log₂)
  | HttpOutcome.requestError m =>
      ({ success := false, content := DictField.absent,
         error := DictField.present ("Request error: " ++ m), details := DictField.absent }, log₂)
  | HttpOutcome.unexpected m =>
      ({ success := false, content := DictField.absent,
         error := DictField.present ("Unexpected error: " ++ m), details := DictField.absent }, log₂)

/-- The fixed instructional wrapper `search_market_info` puts around the
caller's query (text abbreviated; it asks the provider to always cite ticker
symbols for companies mentioned). -/
def market_info_wrapper (query : String) : String :=
  "Provide detailed market research information about:\n        " ++ query ++
  "\n\n        Focus on public companies that might be affected." ++
  "\n        IMPORTANT: For every company you mention, include its stock ticker symbol in parentheses."

/-- Model of `perplexity.py` `PerplexityService.search_market_info` (temperature and
max_tokens, which only shape the provider payload, are not modelled). -/
def PerplexityService.search_market_info (outcome : HttpOutcome) (query : String)
    (model : String) (log : Log) : SearchEnvelope × Log :=
  PerplexityService.search outcome (market_info_wrapper query) model log

/-- The fields of a parsed `PredictionAnalysis` that the pipeline reads:
`prediction_analysis.get("related_industries", [])` and
`prediction_analysis.get("timing", "")`.  The remaining pydantic fields
(confidence, tolerance, name, category, scenarios) influence nothing the
claims mention and are not modelled; the `.get` defaults are absorbed into
the structure. -/
structure Analysis where
  related_industries : List String
  timing : String
deriving DecidableEq, Repr

/-- Stands for the unreachable `result` of a success envelope that carries
no payload (a success envelope always carries one by construction). -/
def default_analysis : Analysis := ⟨[], ""⟩

/-- Python `json.dumps` of a list of strings. -/
def dumps_list (xs : List String) : String :=
  "[" ++ String.intercalate ", " (xs.map (fun s => "\"" ++ s ++ "\"")) ++ "]"

/-- Python `json.dumps(prediction_analysis)`: a concrete serialization of the
modelled fields; no claim inspects the JSON text itself. -/
def json_dumps_analysis (a : Analysis) : String :=
  "\x7b\"related_industries\": " ++ dumps_list a.related_industries ++
  ", \"timing\": \"" ++ a.timing ++ "\"\x7d"

/-- Ticker-finder and strategy payloads are modelled by their JSON
serialization, so `json.dumps` on them is the identity. -/
def json_dumps_payload (t : String) : String := t

/-- Python `f"...{x}..."` on a value that may be `None`. -/
def py_str (c : Option String) : String :=
  match c with
  | some s => s
  | none => "None"

/-- The environment: the outcome of each outbound provider interaction a
single `_process_prediction` run can make.  `researchO` is indexed by the
number of Research-provider calls already made (the run can make more than
one).  `stockO` is the outcome of the stock-data enrichment block in
`create_investment_strategy` (`extract_tickers_from_result` +
`get_stock_data`): `some s` is a non-empty fetched-and-serialized data set,
`none` covers no tickers extracted / empty data; `get_stock_data` catches
every per-ticker exception internally (`processors/prediction.py`), so the
block has no raising outcome. -/
structure Oracles where
  analysisO : Except String Analysis
  researchO : Nat → HttpOutcome
  tickersO : Except String String
  strategyO : Except String String
  stockO : Option String

/-- Model of `ai.py` `AIService.analyze_prediction`: wraps `process_template` on the
`prediction_analysis` template.  Its own `except` clause is unreachable
here: `process_template` catches all its exceptions itself. -/
def AIService.analyze_prediction (outcome : Except String Analysis)
    (prediction_text : String) (model : String) (log : Log) : Envl Analysis × Log :=
  let (result, _vars, call) := process_template outcome prediction_analysis_template
    [("prediction_text", prediction_text)] model
  let log₂ := push_openai log call
  if result.success then
    ({ success := true, error := none, result := result.result }, log₂)
  else
    ({ success := false,
       error := some ("Failed to analyze prediction: " ++ result.error.getD "Unknown error"),
       result := none }, log₂)

/-- The `market_research` template prompt built by `get_market_research`
via `TEMPLATES["market_research"]["user_prompt_template"].format(...)`
(literal text abbreviated; all three placeholders are always supplied, so
the format cannot raise). -/
def market_research_prompt (prediction_text industries timeframe : String) : String :=
  "Provide market research information about this prediction:\n        \"" ++
  prediction_text ++ "\"\n\n        Focus on these industries: " ++ industries ++
  "\n        Timeframe: " ++ timeframe

/-- Model of `ai.py` `AIService.get_market_research`: builds the query (Python
truthiness: an empty industry list and an empty timeframe fall back to the
defaults) and delegates to `PerplexityService.search_market_info`, returning
the search envelope unchanged.  Its `except` clause is unreachable in this
model (the query construction cannot raise). -/
def AIService.get_market_research (outcome : HttpOutcome) (prediction_text : String)
    (industries : List String) (timeframe : String) (search_model : String)
    (log : Log) : SearchEnvelope × Log :=
  let industries_str := if industries.isEmpty then "relevant industries"
    else String.intercalate ", " industries
  let timeframe_str := if timeframe = "" then "" else "Timeframe: " ++ timeframe
  let market_query := market_research_prompt prediction_text industries_str timeframe_str
  PerplexityService.search_market_info outcome market_query search_model log

/-- Python `envelope["content"]`: reading the `content` key.  Only ever
evaluated under `envelope.success`, where the key is present; the `absent`
arm (a `KeyError` in Python) is unreachable at every use site. -/
def search_content (e : SearchEnvelope) : Option String :=
  match e.content with
  | DictField.present c => c
  | DictField.absent => none

/-- The body of `ai.py` `AIService.find_relevant_tickers` once an analysis
is in hand: builds the variables dict, optionally performs its own
market-research call (note: a fresh Research-provider call, not a reuse of
any earlier result), and invokes the `ticker_finder` template, returning
that envelope directly. -/
def AIService.find_tickers_core (research_outcome : HttpOutcome)
    (tickers_outcome : Except String String) (prediction_text : String) (a : Analysis)
    (use_web_search : Bool) (search_model : String) (model : String) (log : Log) :
    Envl String × Log :=
  let vars : Vars := [("prediction_text", prediction_text)]
  let vars := vset vars "prediction_analysis" (json_dumps_analysis a)
  let (vars, log₂) :=
    if use_web_search then
      let (perplexity_result, l) := AIService.get_market_research
        research_outcome prediction_text a.related_industries
        a.timing search_model log
      if perplexity_result.success then
        (vset vars "web_research"
          ("Web Research Results:\n\n" ++ py_str (search_content perplexity_result)), l)
      else (vars, l)
    else (vars, log)
  let (result, _vars, call) := process_template tickers_outcome ticker_finder_template vars model
  (result, push_openai log₂ call)

/-- Model of `ai.py` `AIService.find_relevant_tickers`.  Passing `prediction_analysis = none`
models the Python-falsy case (`if not local_prediction_analysis`) in which a
fresh analysis is fetched first; a non-empty parsed analysis dict is
modelled as `some a` (an empty parsed payload, also falsy in Python, is not
distinguished — the pipeline always passes the stage-1 analysis here). -/
def AIService.find_relevant_tickers (orc : Oracles) (prediction_text : String)
    (prediction_analysis : Option Analysis) (use_web_search : Bool)
    (search_model : String) (model : String) (log : Log) : Envl String × Log :=
  match prediction_analysis with
  | none =>
      let (analysis_result, log₂) := AIService.analyze_prediction orc.analysisO
        prediction_text model log
      if analysis_result.success then
        AIService.find_tickers_core (orc.researchO log₂.research.length) orc.tickersO
          prediction_text (analysis_result.result.getD default_analysis) use_web_search
          search_model model log₂
      else
        ({ success := false,
           error := some ("Failed to analyze prediction: " ++
             analysis_result.error.getD "Unknown error"),
           result := none }, log₂)
  | some a =>
      AIService.find_tickers_core (orc.researchO log.research.length) orc.tickersO
        prediction_text a use_web_search search_model model log

/-- The body of `ai.py` `AIService.create_investment_strategy` once analysis
and tickers are in hand: builds the variables dict (`if market_research:` is
Python truthiness — `None` and the empty string both skip the variable), runs
the stock-data enrichment block when requested (it cannot raise, see
`Oracles.stockO`), and invokes the `investment_strategy` template.  The
relevant-tickers payload is treated as truthy for the
`include_stock_data and local_relevant_tickers` guard (its emptiness is
absorbed into `stockO = none`). -/
def AIService.strategy_core (strategy_outcome : Except String String)
    (stock : Option String) (prediction_text : String) (a : Analysis)
    (t : String) (market_research : Option String)
    (include_stock_data _include_year_data _include_week_data : Bool)
    (model : String) (log : Log) : Envl String × Log :=
  let vars : Vars := [("prediction_text", prediction_text)]
  let vars := vset vars "prediction_analysis" (json_dumps_analysis a)
  let vars := vset vars "relevant_tickers" (json_dumps_payload t)
  let vars :=
    match market_research with
    | some s => if s = "" then vars
        else vset vars "market_research" ("Market Research:\n\n" ++ s)
    | none => vars
  let vars :=
    if include_stock_data then
      match stock with
      | some sd => vset vars "stock_data" ("Stock Data:\n\n" ++ sd)
      | none => vars
    else vars
  let (result, _vars, call) := process_template strategy_outcome investment_strategy_template
    vars model
  (result, push_openai log call)

/-- Intermediate step of `create_investment_strategy`: the
`if not local_relevant_tickers:` fallback that fetches tickers first
(`find_relevant_tickers` is called with default `use_web_search=False`,
`search_model="sonar"`). -/
def AIService.strategy_with_analysis (orc : Oracles) (prediction_text : String)
    (a : Analysis) (relevant_tickers : Option String) (market_research : Option String)
    (include_stock_data include_year_data include_week_data : Bool)
    (model : String) (log : Log) : Envl String × Log :=
  match relevant_tickers with
  | none =>
      let (tickers_result, log₂) := AIService.find_relevant_tickers orc prediction_text
        (some a) false "sonar" model log
      if tickers_result.success then
        AIService.strategy_core orc.strategyO orc.stockO prediction_text a
          (tickers_result.result.getD "") market_research include_stock_data
          include_year_data include_week_data model log₂
      else
        ({ success := false,
           error := some ("Failed to find relevant tickers: " ++
             tickers_result.error.getD "Unknown error"),
           result := none }, log₂)
  | some t =>
      AIService.strategy_core orc.strategyO orc.stockO prediction_text a t market_research
        include_stock_data include_year_data include_week_data model log

/-- Model of `ai.py` `AIService.create_investment_strategy` (the
`if not local_prediction_analysis:` fallback, then
`strategy_with_analysis`). -/
def AIService.create_investment_strategy (orc : Oracles) (prediction_text : String)
    (prediction_analysis : Option Analysis) (relevant_tickers : Option String)
    (market_research : Option String)
    (include_stock_data include_year_data include_week_data : Bool)
    (model : String) (log : Log) : Envl String × Log :=
  match prediction_analysis with
  | none =>
      let (analysis_result, log₂) := AIService.analyze_prediction orc.analysisO
        prediction_text model log
      if analysis_result.success then
        AIService.strategy_with_analysis orc prediction_text
          (analysis_result.result.getD default_analysis) relevant_tickers market_research
          include_stock_data include_year_data include_week_data model log₂
      else
        ({ success := false,
           error := some ("Failed to analyze prediction: " ++
             analysis_result.error.getD "Unknown error"),
           result := none }, log₂)
  | some a =>
      AIService.strategy_with_analysis orc prediction_text a relevant_tickers
        market_research include_stock_data include_year_data include_week_data model log

/-- The final results dict compiled at step 5 of `_process_prediction`
(`prediction_queue.py` lines 190–198).  `market_research` is an
`Option String`: `none` is Python `None`. -/
structure PredictionResult where
  prediction_text : String
  success : Bool
  analysis : Analysis
  market_research : Option String
  relevant_tickers : String
  investment_strategy : String
deriving DecidableEq, Repr

/-- The job record: `models/predictions.py` `PredictionStatusResponse`.
Timestamps are abstract ticks (`Nat`); `progress` values in the source are
the exact floats 0.0/10.0/30.0/50.0/70.0/100.0, represented exactly as
naturals.  `message` is always assigned a string by every writer, so the
pydantic `Optional` is modelled as `String`. -/
structure PredictionStatusResponse where
  prediction_id : String
  status : PredictionStatus
  created_at : Nat
  updated_at : Nat
  message : String
  progress : Nat
  result : Option PredictionResult
deriving DecidableEq, Repr

/-- The argument tuple of one `cls._update_status(...)` call made by
`_process_prediction` (prediction id omitted: the run updates its own job). -/
structure UpdateEvent where
  status : PredictionStatus
  message : String
  progress : Nat
  result : Option PredictionResult
deriving DecidableEq, Repr

/-- The `options` dict of `_process_prediction`; `none` models an absent
key, read through `options.get(key, default)`. -/
structure RequestOptions where
  model : Option String
  use_web_search : Option Bool
  search_model : Option String
  use_finviz_screener : Option Bool
  include_stock_data : Option Bool
  include_year_data : Option Bool
  include_week_data : Option Bool

/-- The `_update_status` call made by the `except` handler of
`_process_prediction` (lines 209–216): status FAILED, message
`f"Prediction processing failed: {str(e)}"`, progress 100, no result. -/
def fail_event (msg : String) : UpdateEvent :=
  ⟨PredictionStatus.FAILED, "Prediction processing failed: " ++ msg, 100, none⟩

/-- Model of `prediction_queue.py` `PredictionQueueManager._process_prediction`:
the exact sequence of `_update_status` calls the run performs, in order,
together with the provider-call log.  The `try` body can only raise at the
three explicit `raise Exception(...)` statements — every `AIService` call
catches its own exceptions and returns an envelope — so the `except`
handler (=`fail_event`) fires exactly on those three paths and every path
is covered by the oracle space. -/
def PredictionQueueManager.process_prediction (orc : Oracles) (prediction_text : String)
    (options : RequestOptions) : List UpdateEvent × Log :=
  let model := options.model.getD "gpt-4o-mini"
  let use_web_search := options.use_web_search.getD false
  let search_model := options.search_model.getD "sonar"
  let _use_finviz_screener := options.use_finviz_screener.getD true
  let include_stock_data := options.include_stock_data.getD false
  let include_year_data := options.include_year_data.getD false
  let include_week_data := options.include_week_data.getD false
  let analyzing_event : UpdateEvent :=
    ⟨PredictionStatus.ANALYZING, "Analyzing prediction text", 10, none⟩
  let log : Log := ⟨[], []⟩
  let (analysis_result, log) := AIService.analyze_prediction orc.analysisO
    prediction_text model log
  if !analysis_result.success then
    ([analyzing_event,
      fail_event ("Analysis failed: " ++ analysis_result.error.getD "Unknown error")], log)
  else
    let prediction_analysis := analysis_result.result.getD default_analysis
    let (market_research, research_events, log) :=
      if use_web_search then
        let researching_event : UpdateEvent :=
          ⟨PredictionStatus.RESEARCHING, "Gathering market research", 30, none⟩
        let (perplexity_result, l) := AIService.get_market_research
          (orc.researchO log.research.length) prediction_text
          prediction_analysis.related_industries prediction_analysis.timing search_model log
        ((if perplexity_result.success then search_content perplexity_result else none),
         [researching_event], l)
      else ((none : Option String), ([] : List UpdateEvent), log)
    let finding_event : UpdateEvent :=
      ⟨PredictionStatus.FINDING_TICKERS, "Finding relevant tickers", 50, none⟩
    let (tickers_result, log) := AIService.find_relevant_tickers orc prediction_text
      (some prediction_analysis) use_web_search search_model model log
    if !tickers_result.success then
      ([analyzing_event] ++ research_events ++
       [finding_event,
        fail_event ("Ticker search failed: " ++ tickers_result.error.getD "Unknown error")], log)
    else
      let relevant_tickers := tickers_result.result.getD ""
      let strategy_event : UpdateEvent :=
        ⟨PredictionStatus.CREATING_STRATEGY, "Creating investment strategy", 70, none⟩
      let (strategy_result, log) := AIService.create_investment_strategy orc prediction_text
        (some prediction_analysis) (some relevant_tickers) market_research
        include_stock_data include_year_data include_week_data model log
      if !strategy_result.success then
        ([analyzing_event] ++ research_events ++
         [finding_event, strategy_event,
          fail_event ("Strategy creation failed: " ++
            strategy_result.error.getD "Unknown error")], log)
      else
        let investment_strategy := strategy_result.result.getD ""
        let final : PredictionResult :=
          ⟨prediction_text, true, prediction_analysis, market_research,
           relevant_tickers, investment_strategy⟩
        ([analyzing_event] ++ research_events ++
         [finding_event, strategy_event,
          ⟨PredictionStatus.COMPLETED, "Prediction analysis completed", 100, some final⟩], log)

/-- The record mutation performed by `_update_status` on a found record
(lines 238–245): status, message, progress and `updated_at` are overwritten
unconditionally; `result` is overwritten only when a non-`None` result is
passed (`if result is not None`), otherwise the previous value is kept. -/
def apply_update (j : PredictionStatusResponse) (e : UpdateEvent) (now : Nat) :
    PredictionStatusResponse :=
  { j with
    status := e.status
    message := e.message
    progress := e.progress
    updated_at := now
    result := (match e.result with
      | some r => some r
      | none => j.result) }

/-- The in-memory job table `PredictionQueueManager._predictions`. -/
abbrev JobTable := List (String × PredictionStatusResponse)

/-- Model of `prediction_queue.py` `PredictionQueueManager._update_status`: guarded
by `if prediction_id in cls._predictions` — an unknown id makes the call a
no-op that returns normally (the function is total). -/
def PredictionQueueManager.update_status (table : JobTable) (prediction_id : String)
    (e : UpdateEvent) (now : Nat) : JobTable :=
  if (table.lookup prediction_id).isSome then
    table.map (fun p => if p.1 = prediction_id then (p.1, apply_update p.2 e now) else p)
  else table

/-- The record inserted by `create_prediction` (lines 36–44): PENDING,
progress 0, message "Prediction queued for processing", no result. -/
def PredictionQueueManager.create_record (prediction_id : String) (now : Nat) :
    PredictionStatusResponse :=
  ⟨prediction_id, PredictionStatus.PENDING, now, now,
   "Prediction queued for processing", 0, none⟩

/-- The successive states of one job record: the initial record followed by
the record after each update, timestamps drawn from `clock`. -/
def states_from (j : PredictionStatusResponse) (events : List UpdateEvent)
    (clock : Nat → Nat) (k : Nat) : List PredictionStatusResponse :=
  match events with
  | [] => [j]
  | e :: rest => j :: states_from (apply_update j e (clock k)) rest clock (k + 1)

/-- Every state of a job record over its lifetime: the record created by
`create_prediction`, then the record after each `_update_status` call the
background run performs.  (The run only ever touches its own record, so the
record evolution is exactly the fold of `apply_update` over the events.) -/
def job_states (orc : Oracles) (prediction_id prediction_text : String)
    (options : RequestOptions) (clock : Nat → Nat) : List PredictionStatusResponse :=
  let events := (PredictionQueueManager.process_prediction orc prediction_text options).1
  states_from (PredictionQueueManager.create_record prediction_id (clock 0)) events clock 1

/-- The envelope `process_template` returns once validation and rendering
have succeeded, as a function of the provider outcome. -/
def env_of {α : Type} (o : Except String α) : Envl α :=
  match o with
  | Except.ok v => ⟨true, none, some v⟩
  | Except.error e => ⟨false, some e, none⟩

/-- The envelope `PerplexityService.search` returns, as a function of the
HTTP outcome. -/
def search_envelope_of (o : HttpOutcome) : SearchEnvelope :=
  match o with
  | HttpOutcome.ok c =>
      { success := true, content := DictField.present c, error := DictField.absent,
        details := DictField.absent }
  | HttpOutcome.statusError code body =>
      { success := false, content := DictField.absent,
        error := DictField.present ("HTTP error: " ++ toString code),
        details := DictField.present body }
  | HttpOutcome.requestError m =>
      { success := false, content := DictField.absent,
        error := DictField.present ("Request error: " ++ m), details := DictField.absent }
  | HttpOutcome.unexpected m =>
      { success := false, content := DictField.absent,
        error := DictField.present ("Unexpected error: " ++ m), details := DictField.absent }

/-- The Structured-Output call recorded for the `prediction_analysis` stage. -/
def analysis_call (t m : String) : OpenAICall :=
  ⟨"prediction_analysis", [("prediction_text", t), ("industry_list", industry_list)], m⟩

/-- The Research-provider query `get_market_research` builds. -/
def gmr_query (t : String) (inds : List String) (tf : String) : String :=
  market_info_wrapper (market_research_prompt t
    (if inds.isEmpty then "relevant industries" else String.intercalate ", " inds)
    (if tf = "" then "" else "Timeframe: " ++ tf))

/-- The validated variables of the `ticker_finder` call, as a function of
the research flag and the research outcome of the call made directly before
it (inside `find_relevant_tickers`). -/
def ticker_call_vars (t : String) (a : Analysis) (uws : Bool) (h : HttpOutcome) : Vars :=
  match uws, h with
  | true, HttpOutcome.ok c =>
      [("prediction_text", t), ("prediction_analysis", json_dumps_analysis a),
       ("web_research", "Web Research Results:\n\n" ++ py_str c),
       ("industry_list", industry_list)]
  | true, _ =>
      [("prediction_text", t), ("prediction_analysis", json_dumps_analysis a),
       ("web_research", ""), ("industry_list", industry_list)]
  | false, _ =>
      [("prediction_text", t), ("prediction_analysis", json_dumps_analysis a),
       ("web_research", ""), ("industry_list", industry_list)]

/-- The validated variables of the `investment_strategy` call (mirrors the
construction in `strategy_core` followed by optional-default insertion). -/
def strategy_call_vars (t : String) (a : Analysis) (tk : String) (mr : Option String)
    (stock : Option String) (isd : Bool) : Vars :=
  let vars : Vars := [("prediction_text", t),
    ("prediction_analysis", json_dumps_analysis a),
    ("relevant_tickers", json_dumps_payload tk)]
  let vars :=
    match mr with
    | some s => if s = "" then vars
        else vset vars "market_research" ("Market Research:\n\n" ++ s)
    | none => vars
  let vars :=
    if isd then
      match stock with
      | some sd => vset vars "stock_data" ("Stock Data:\n\n" ++ sd)
      | none => vars
    else vars
  investment_strategy_template.optional_vars.foldl
    (fun vs p => if hasKey vs p.1 then vs else vset vs p.1 p.2) vars

theorem analyze_ok (a : Analysis) (t m : String) (log : Log) :
    AIService.analyze_prediction (Except.ok a) t m log =
    ({ success := true, error := none, result := some a },
     ⟨log.openai ++ [analysis_call t m], log.research⟩) :=
  rfl

theorem analyze_err (e : String) (t m : String) (log : Log) :
    AIService.analyze_prediction (Except.error e) t m log =
    ({ success := false, error := some ("Failed to analyze prediction: " ++ e), result := none },
     ⟨log.openai ++ [analysis_call t m], log.research⟩) :=
  rfl

theorem gmr_char (o : HttpOutcome) (t : String) (inds : List String) (tf sm : String)
    (log : Log) :
    AIService.get_market_research o t inds tf sm log =
    (search_envelope_of o, ⟨log.openai, log.research ++ [⟨gmr_query t inds tf, sm⟩]⟩) := by
  cases o <;> rfl

theorem find_core_char (ro : HttpOutcome) (tko : Except String String) (t : String)
    (a : Analysis) (uws : Bool) (sm m : String) (log : Log) :
    AIService.find_tickers_core ro tko t a uws sm m log =
    (env_of tko,
     ⟨log.openai ++ [⟨"ticker_finder", ticker_call_vars t a uws ro, m⟩],
      if uws then log.research ++ [⟨gmr_query t a.related_industries a.timing, sm⟩]
      else log.research⟩) := by
  cases uws <;> cases ro <;> cases tko <;> rfl

theorem strategy_core_char (so : Except String String) (sto : Option String) (t : String)
    (a : Analysis) (tk : String) (mr : Option String) (isd iy iw : Bool) (m : String)
    (log : Log) :
    AIService.strategy_core so sto t a tk mr isd iy iw m log =
    (env_of so,
     ⟨log.openai ++ [⟨"investment_strategy", strategy_call_vars t a tk mr sto isd, m⟩],
      log.research⟩) := by
  rcases mr with _ | s
  · cases isd <;> cases sto <;> cases so <;> rfl
  · rcases eq_or_ne s "" with hs | hs
    · subst hs
      cases isd <;> cases sto <;> cases so <;> rfl
    · simp only [AIService.strategy_core, strategy_call_vars, if_neg hs]
      cases isd <;> cases sto <;> cases so <;> rfl

def analyzing_event : UpdateEvent :=
  ⟨PredictionStatus.ANALYZING, "Analyzing prediction text", 10, none⟩

def researching_event : UpdateEvent :=
  ⟨PredictionStatus.RESEARCHING, "Gathering market research", 30, none⟩

def finding_event : UpdateEvent :=
  ⟨PredictionStatus.FINDING_TICKERS, "Finding relevant tickers", 50, none⟩

def strategy_event : UpdateEvent :=
  ⟨PredictionStatus.CREATING_STRATEGY, "Creating investment strategy", 70, none⟩

def completed_event (r : PredictionResult) : UpdateEvent :=
  ⟨PredictionStatus.COMPLETED, "Prediction analysis completed", 100, some r⟩

/-- The `market_research` value the pipeline carries into its final result:
the stage-2 research content on success, `none` otherwise. -/
def mr_of (uws : Bool) (r0 : HttpOutcome) : Option String :=
  if uws then
    match r0 with
    | HttpOutcome.ok c => c
    | _ => none
  else none

theorem pp_analysis_fail (orc : Oracles) (t : String) (opts : RequestOptions) (e : String)
    (ha : orc.analysisO = Except.error e) :
    PredictionQueueManager.process_prediction orc t opts =
    ([analyzing_event,
      fail_event ("Analysis failed: " ++ ("Failed to analyze prediction: " ++ e))],
     ⟨[analysis_call t (opts.model.getD "gpt-4o-mini")], []⟩) := by
  simp only [PredictionQueueManager.process_prediction, ha, analyze_err]
  rfl

theorem pp_tickers_fail (orc : Oracles) (t : String) (opts : RequestOptions) (a : Analysis)
    (e : String) (ha : orc.analysisO = Except.ok a) (ht : orc.tickersO = Except.error e) :
    PredictionQueueManager.process_prediction orc t opts =
    ([analyzing_event] ++
     (if opts.use_web_search.getD false then [researching_event] else []) ++
     [finding_event, fail_event ("Ticker search failed: " ++ e)],
     ⟨[analysis_call t (opts.model.getD "gpt-4o-mini"),
       ⟨"ticker_finder",
        ticker_call_vars t a (opts.use_web_search.getD false)
          (orc.researchO (if opts.use_web_search.getD false then 1 else 0)),
        opts.model.getD "gpt-4o-mini"⟩],
      if opts.use_web_search.getD false then
        [⟨gmr_query t a.related_industries a.timing, opts.search_model.getD "sonar"⟩,
         ⟨gmr_query t a.related_industries a.timing, opts.search_model.getD "sonar"⟩]
      else []⟩) := by
  cases hu : opts.use_web_search.getD false <;>
    simp only [PredictionQueueManager.process_prediction, ha, ht, hu, analyze_ok, gmr_char,
      AIService.find_relevant_tickers, find_core_char, env_of, Bool.false_eq_true,
      if_false, if_true, List.nil_append, List.append_nil, List.length_nil,
      List.length_cons, List.singleton_append, List.cons_append] <;>
    rfl

theorem pp_strategy_fail (orc : Oracles) (t : String) (opts : RequestOptions) (a : Analysis)
    (tk e : String) (ha : orc.analysisO = Except.ok a) (ht : orc.tickersO = Except.ok tk)
    (hs : orc.strategyO = Except.error e) :
    PredictionQueueManager.process_prediction orc t opts =
    ([analyzing_event] ++
     (if opts.use_web_search.getD false then [researching_event] else []) ++
     [finding_event, strategy_event,
      fail_event ("Strategy creation failed: " ++ e)],
     ⟨[analysis_call t (opts.model.getD "gpt-4o-mini"),
       ⟨"ticker_finder",
        ticker_call_vars t a (opts.use_web_search.getD false)
          (orc.researchO (if opts.use_web_search.getD false then 1 else 0)),
        opts.model.getD "gpt-4o-mini"⟩,
       ⟨"investment_strategy",
        strategy_call_vars t a tk
          (mr_of (opts.use_web_search.getD false) (orc.researchO 0)) orc.stockO
          (opts.include_stock_data.getD false),
        opts.model.getD "gpt-4o-mini"⟩],
      if opts.use_web_search.getD false then
        [⟨gmr_query t a.related_industries a.timing, opts.search_model.getD "sonar"⟩,
         ⟨gmr_query t a.related_industries a.timing, opts.search_model.getD "sonar"⟩]
      else []⟩) := by
  cases hu : opts.use_web_search.getD false
  · simp only [PredictionQueueManager.process_prediction, ha, ht, hs, hu, analyze_ok,
      gmr_char, AIService.find_relevant_tickers, find_core_char,
      AIService.create_investment_strategy, AIService.strategy_with_analysis,
      strategy_core_char, env_of, mr_of, Bool.false_eq_true, if_false, if_true,
      List.nil_append, List.append_nil, List.cons_append, List.singleton_append]
    rfl
  · cases h0 : orc.researchO 0 <;>
      simp only [PredictionQueueManager.process_prediction, ha, ht, hs, hu, h0, analyze_ok,
        gmr_char, AIService.find_relevant_tickers, find_core_char,
        AIService.create_investment_strategy, AIService.strategy_with_analysis,
        strategy_core_char, env_of, search_envelope_of, search_content, mr_of,
        Bool.false_eq_true, if_false, if_true, List.nil_append, List.append_nil,
        List.cons_append, List.singleton_append, List.length_nil, List.length_cons] <;>
      rfl

theorem pp_success (orc : Oracles) (t : String) (opts : RequestOptions) (a : Analysis)
    (tk st : String) (ha : orc.analysisO = Except.ok a) (ht : orc.tickersO = Except.ok tk)
    (hs : orc.strategyO = Except.ok st) :
    PredictionQueueManager.process_prediction orc t opts =
    ([analyzing_event] ++
     (if opts.use_web_search.getD false then [researching_event] else []) ++
     [finding_event, strategy_event,
      completed_event
        ⟨t, true, a, mr_of (opts.use_web_search.getD false) (orc.researchO 0), tk, st⟩],
     ⟨[analysis_call t (opts.model.getD "gpt-4o-mini"),
       ⟨"ticker_finder",
        ticker_call_vars t a (opts.use_web_search.getD false)
          (orc.researchO (if opts.use_web_search.getD false then 1 else 0)),
        opts.model.getD "gpt-4o-mini"⟩,
       ⟨"investment_strategy",
        strategy_call_vars t a tk
          (mr_of (opts.use_web_search.getD false) (orc.researchO 0)) orc.stockO
          (opts.include_stock_data.getD false),
        opts.model.getD "gpt-4o-mini"⟩],
      if opts.use_web_search.getD false then
        [⟨gmr_query t a.related_industries a.timing, opts.search_model.getD "sonar"⟩,
         ⟨gmr_query t a.related_industries a.timing, opts.search_model.getD "sonar"⟩]
      else []⟩) := by
  cases hu : opts.use_web_search.getD false
  · simp only [PredictionQueueManager.process_prediction, ha, ht, hs, hu, analyze_ok,
      gmr_char, AIService.find_relevant_tickers, find_core_char,
      AIService.create_investment_strategy, AIService.strategy_with_analysis,
      strategy_core_char, env_of, mr_of, Bool.false_eq_true, if_false, if_true,
      List.nil_append, List.append_nil, List.cons_append, List.singleton_append]
    rfl
  · cases h0 : orc.researchO 0 <;>
      simp only [PredictionQueueManager.process_prediction, ha, ht, hs, hu, h0, analyze_ok,
        gmr_char, AIService.find_relevant_tickers, find_core_char,
        AIService.create_investment_strategy, AIService.strategy_with_analysis,
        strategy_core_char, env_of, search_envelope_of, search_content, mr_of,
        Bool.false_eq_true, if_false, if_true, List.nil_append, List.append_nil,
        List.cons_append, List.singleton_append, List.length_nil, List.length_cons] <;>
      rfl

/-- Claim C1: for every job managed by the Job Tracker, at every point in its
lifetime the record's `result` is non-null iff its `status` is COMPLETED;
every intermediate and FAILED transition leaves `result` null, and COMPLETED
(which sets a non-null result) is only ever the final state, so the result is
never mutated afterwards. -/
theorem C1_result_iff_completed (orc : Oracles) (pid t : String) (opts : RequestOptions)
    (clock : Nat → Nat) :
    (∀ j ∈ job_states orc pid t opts clock,
        (j.result ≠ none ↔ j.status = PredictionStatus.COMPLETED))
    ∧ (∀ j ∈ (job_states orc pid t opts clock).dropLast,
        j.status ≠ PredictionStatus.COMPLETED) := by
  cases ha : orc.analysisO with
  | error e =>
    rw [job_states, pp_analysis_fail orc t opts e ha]
    simp [states_from, apply_update, PredictionQueueManager.create_record,
      analyzing_event, fail_event]
  | ok a =>
    cases ht : orc.tickersO with
    | error e =>
      rw [job_states, pp_tickers_fail orc t opts a e ha ht]
      cases hu : opts.use_web_search.getD false <;>
        simp [hu, states_from, apply_update, PredictionQueueManager.create_record,
          analyzing_event, researching_event, finding_event, fail_event]
    | ok tk =>
      cases hs : orc.strategyO with
      | error e =>
        rw [job_states, pp_strategy_fail orc t opts a tk e ha ht hs]
        cases hu : opts.use_web_search.getD false <;>
          simp [hu, states_from, apply_update, PredictionQueueManager.create_record,
            analyzing_event, researching_event, finding_event, strategy_event, fail_event]
      | ok st =>
        rw [job_states, pp_success orc t opts a tk st ha ht hs]
        cases hu : opts.use_web_search.getD false <;>
          simp [hu, states_from, apply_update, PredictionQueueManager.create_record,
            analyzing_event, researching_event, finding_event, strategy_event,
            completed_event]

/-- The forward pipeline status chain of the spec. -/
def pipeline_chain : List PredictionStatus :=
  [PredictionStatus.PENDING, PredictionStatus.ANALYZING, PredictionStatus.RESEARCHING,
   PredictionStatus.FINDING_TICKERS, PredictionStatus.CREATING_STRATEGY,
   PredictionStatus.COMPLETED]

/-- The non-terminal prefix of the forward chain. -/
def forward_chain : List PredictionStatus :=
  [PredictionStatus.PENDING, PredictionStatus.ANALYZING, PredictionStatus.RESEARCHING,
   PredictionStatus.FINDING_TICKERS, PredictionStatus.CREATING_STRATEGY]

/-- Claim C2: for every job, the sequence of statuses produced by successive
updates is a subsequence of [PENDING, ANALYZING, RESEARCHING, FINDING_TICKERS,
CREATING_STRATEGY, COMPLETED], or ends in FAILED with the preceding statuses a
subsequence of the non-terminal forward chain; the status never regresses, and
no state before the last one is terminal (COMPLETED or FAILED), so once a
terminal status is recorded no further transition occurs. -/
theorem C2_status_progression (orc : Oracles) (pid t : String) (opts : RequestOptions)
    (clock : Nat → Nat) :
    (((job_states orc pid t opts clock).map (fun j => j.status)).Sublist pipeline_chain ∨
     (((job_states orc pid t opts clock).map (fun j => j.status)).getLast? =
        some PredictionStatus.FAILED ∧
      (((job_states orc pid t opts clock).map (fun j => j.status)).dropLast).Sublist
        forward_chain)) ∧
    (∀ j ∈ (job_states orc pid t opts clock).dropLast,
       j.status ≠ PredictionStatus.COMPLETED ∧ j.status ≠ PredictionStatus.FAILED) := by
  cases ha : orc.analysisO with
  | error e =>
    rw [job_states, pp_analysis_fail orc t opts e ha]
    simp [states_from, apply_update, PredictionQueueManager.create_record,
      analyzing_event, fail_event, pipeline_chain, forward_chain]
  | ok a =>
    cases ht : orc.tickersO with
    | error e =>
      rw [job_states, pp_tickers_fail orc t opts a e ha ht]
      cases hu : opts.use_web_search.getD false <;>
        simp [hu, states_from, apply_update, PredictionQueueManager.create_record,
          analyzing_event, researching_event, finding_event, fail_event,
          pipeline_chain, forward_chain]
    | ok tk =>
      cases hs : orc.strategyO with
      | error e =>
        rw [job_states, pp_strategy_fail orc t opts a tk e ha ht hs]
        cases hu : opts.use_web_search.getD false <;>
          simp [hu, states_from, apply_update, PredictionQueueManager.create_record,
            analyzing_event, researching_event, finding_event, strategy_event, fail_event,
            pipeline_chain, forward_chain]
      | ok st =>
        rw [job_states, pp_success orc t opts a tk st ha ht hs]
        cases hu : opts.use_web_search.getD false <;>
          simp [hu, states_from, apply_update, PredictionQueueManager.create_record,
            analyzing_event, researching_event, finding_event, strategy_event,
            completed_event, pipeline_chain, forward_chain]

/-- Claim C3: for every job, every combination of option flags and invoker
outcomes, the background pipeline run (a total function — exceptions are
captured by the `except` handler modelled in `process_prediction`) leaves the
job in a terminal status: the final state is COMPLETED or FAILED. -/
theorem C3_terminal (orc : Oracles) (pid t : String) (opts : RequestOptions)
    (clock : Nat → Nat) :
    ((job_states orc pid t opts clock).getLastD
        (PredictionQueueManager.create_record pid (clock 0))).status =
      PredictionStatus.COMPLETED ∨
    ((job_states orc pid t opts clock).getLastD
        (PredictionQueueManager.create_record pid (clock 0))).status =
      PredictionStatus.FAILED := by
  cases ha : orc.analysisO with
  | error e =>
    rw [job_states, pp_analysis_fail orc t opts e ha]
    simp [states_from, apply_update, PredictionQueueManager.create_record,
      analyzing_event, fail_event]
  | ok a =>
    cases ht : orc.tickersO with
    | error e =>
      rw [job_states, pp_tickers_fail orc t opts a e ha ht]
      cases hu : opts.use_web_search.getD false <;>
        simp [hu, states_from, apply_update, PredictionQueueManager.create_record,
          analyzing_event, researching_event, finding_event, fail_event]
    | ok tk =>
      cases hs : orc.strategyO with
      | error e =>
        rw [job_states, pp_strategy_fail orc t opts a tk e ha ht hs]
        cases hu : opts.use_web_search.getD false <;>
          simp [hu, states_from, apply_update, PredictionQueueManager.create_record,
            analyzing_event, researching_event, finding_event, strategy_event, fail_event]
      | ok st =>
        rw [job_states, pp_success orc t opts a tk st ha ht hs]
        cases hu : opts.use_web_search.getD false <;>
          simp [hu, states_from, apply_update, PredictionQueueManager.create_record,
            analyzing_event, researching_event, finding_event, strategy_event,
            completed_event]

/-- Claim C7: for every job and every execution path (with or without
RESEARCHING, and on FAILED paths), the `progress` values of the successive
job states are monotonically non-decreasing over the job's lifetime — both
between consecutive states (`Chain'`) and between every earlier and every
later state (`Pairwise`) — and every recorded value stays within [0, 100]. -/
theorem C7_progress_monotone (orc : Oracles) (pid t : String) (opts : RequestOptions)
    (clock : Nat → Nat) :
    List.Chain' (fun p q => p ≤ q)
      ((job_states orc pid t opts clock).map (fun j => j.progress)) ∧
    List.Pairwise (fun p q => p ≤ q)
      ((job_states orc pid t opts clock).map (fun j => j.progress)) ∧
    (∀ p ∈ (job_states orc pid t opts clock).map (fun j => j.progress),
       0 ≤ p ∧ p ≤ 100) := by
  cases ha : orc.analysisO with
  | error e =>
    rw [job_states, pp_analysis_fail orc t opts e ha]
    simp [states_from, apply_update, PredictionQueueManager.create_record,
      analyzing_event, fail_event]
  | ok a =>
    cases ht : orc.tickersO with
    | error e =>
      rw [job_states, pp_tickers_fail orc t opts a e ha ht]
      cases hu : opts.use_web_search.getD false <;>
        simp [hu, states_from, apply_update, PredictionQueueManager.create_record,
          analyzing_event, researching_event, finding_event, fail_event]
    | ok tk =>
      cases hs : orc.strategyO with
      | error e =>
        rw [job_states, pp_strategy_fail orc t opts a tk e ha ht hs]
        cases hu : opts.use_web_search.getD false <;>
          simp [hu, states_from, apply_update, PredictionQueueManager.create_record,
            analyzing_event, researching_event, finding_event, strategy_event, fail_event]
      | ok st =>
        rw [job_states, pp_success orc t opts a tk st ha ht hs]
        cases hu : opts.use_web_search.getD false <;>
          simp [hu, states_from, apply_update, PredictionQueueManager.create_record,
            analyzing_event, researching_event, finding_event, strategy_event,
            completed_event]

/-- Claim C4: for every job with research enabled, if every Research-provider
call fails while the analysis, ticker and strategy Structured-Output calls
succeed, the job still reaches COMPLETED and the `market_research` field of
its result is null. -/
theorem C4_research_nonfatal (orc : Oracles) (pid t : String) (opts : RequestOptions)
    (clock : Nat → Nat) (a : Analysis) (tk st : String)
    (huws : opts.use_web_search = some true)
    (hres : ∀ n c, orc.researchO n ≠ HttpOutcome.ok c)
    (ha : orc.analysisO = Except.ok a) (ht : orc.tickersO = Except.ok tk)
    (hs : orc.strategyO = Except.ok st) :
    ∃ r, ((job_states orc pid t opts clock).getLastD
            (PredictionQueueManager.create_record pid (clock 0))).status =
          PredictionStatus.COMPLETED ∧
         ((job_states orc pid t opts clock).getLastD
            (PredictionQueueManager.create_record pid (clock 0))).result = some r ∧
         r.market_research = none := by
  rw [job_states, pp_success orc t opts a tk st ha ht hs]
  have hmr : mr_of true (orc.researchO 0) = none := by
    cases h0 : orc.researchO 0 with
    | ok c => exact absurd h0 (hres 0 c)
    | statusError code body => rfl
    | requestError m => rfl
    | unexpected m => rfl
  refine ⟨⟨t, true, a, none, tk, st⟩, ?_⟩
  simp [huws, hmr, states_from, apply_update, PredictionQueueManager.create_record,
    analyzing_event, researching_event, finding_event, strategy_event, completed_event]

/-- Claim C5: if the Structured-Output Invoker fails during the ANALYZING
stage, the job ends FAILED with a message containing the envelope's error
text, and the run makes zero `ticker_finder` and zero `investment_strategy`
invoker calls. -/
theorem C5_analysis_failure_fatal (orc : Oracles) (pid t : String) (opts : RequestOptions)
    (clock : Nat → Nat) (e : String) (ha : orc.analysisO = Except.error e) :
    ((job_states orc pid t opts clock).getLastD
        (PredictionQueueManager.create_record pid (clock 0))).status =
      PredictionStatus.FAILED ∧
    (∃ pre, ((job_states orc pid t opts clock).getLastD
        (PredictionQueueManager.create_record pid (clock 0))).message = pre ++ e) ∧
    ((PredictionQueueManager.process_prediction orc t opts).2.openai.filter
       (fun c => c.template_name = "ticker_finder")).length = 0 ∧
    ((PredictionQueueManager.process_prediction orc t opts).2.openai.filter
       (fun c => c.template_name = "investment_strategy")).length = 0 := by
  rw [job_states, pp_analysis_fail orc t opts e ha]
  refine ⟨?_, ⟨"Prediction processing failed: " ++
    ("Analysis failed: " ++ "Failed to analyze prediction: "), ?_⟩, ?_, ?_⟩
  · simp [states_from, apply_update, PredictionQueueManager.create_record,
      analyzing_event, fail_event]
  · rfl
  · rfl
  · rfl

def test_analysis : Analysis := ⟨["tech"], "1 year"⟩

def opts_research : RequestOptions := ⟨none, some true, none, none, none, none, none⟩

def orc_two_research : Oracles :=
  ⟨Except.ok test_analysis,
   fun n => HttpOutcome.ok (some (if n = 0 then "R1" else "R2")),
   Except.ok "T", Except.ok "S", none⟩

/-- Claim C6, counterexample: with research enabled and all providers
succeeding (first research call returning R1, second R2), the run makes two
Research-provider calls, not at most one, and the `ticker_finder` template
receives `web_research` built from the second call's text R2 while the
RESEARCHING stage's text (stored in the final result) was R1 — refuting the
claim that FINDING_TICKERS reuses the RESEARCHING stage's output. -/
theorem C6_counterexample :
    (PredictionQueueManager.process_prediction orc_two_research "pred"
        opts_research).2.research.length = 2 ∧
    ¬ ((PredictionQueueManager.process_prediction orc_two_research "pred"
        opts_research).2.research.length ≤ 1) ∧
    ((PredictionQueueManager.process_prediction orc_two_research "pred"
        opts_research).2.openai.filter
        (fun c => c.template_name = "ticker_finder")).map (fun c => vget c.vars "web_research") =
      [some "Web Research Results:\n\nR2"] ∧
    ((job_states orc_two_research "job-1" "pred" opts_research (fun k => k)).getLastD
        (PredictionQueueManager.create_record "job-1" 0)).result =
      some ⟨"pred", true, test_analysis, some "R1", "T", "S"⟩ :=
  ⟨rfl, by decide, rfl, rfl⟩

/-- Claim C6, amended: the FINDING_TICKERS stage does not reuse the
RESEARCHING stage's research text: `find_relevant_tickers` performs its own
fresh Research-provider call, so a research-enabled run whose analysis
succeeds makes exactly two Research-provider calls, and the `ticker_finder`
template's `web_research` variable is built from the second call's content
(the empty-string default when that second call fails). -/
theorem C6_amended_fresh_research (orc : Oracles) (t : String) (opts : RequestOptions)
    (a : Analysis) (huws : opts.use_web_search = some true)
    (ha : orc.analysisO = Except.ok a) :
    (PredictionQueueManager.process_prediction orc t opts).2.research.length = 2 ∧
    ((PredictionQueueManager.process_prediction orc t opts).2.openai.filter
        (fun c => c.template_name = "ticker_finder")).map
        (fun c => vget c.vars "web_research") =
      [some (match orc.researchO 1 with
             | HttpOutcome.ok c => "Web Research Results:\n\n" ++ py_str c
             | _ => "")] := by
  cases ht : orc.tickersO with
  | error e =>
    rw [pp_tickers_fail orc t opts a e ha ht, huws]
    refine ⟨by simp, ?_⟩
    cases h1 : orc.researchO 1 <;>
      simp [h1, ticker_call_vars, vget, py_str, analysis_call]
  | ok tk =>
    cases hs : orc.strategyO with
    | error e =>
      rw [pp_strategy_fail orc t opts a tk e ha ht hs, huws]
      refine ⟨by simp, ?_⟩
      cases h1 : orc.researchO 1 <;>
        simp [h1, ticker_call_vars, vget, py_str, analysis_call]
    | ok st =>
      rw [pp_success orc t opts a tk st ha ht hs, huws]
      refine ⟨by simp, ?_⟩
      cases h1 : orc.researchO 1 <;>
        simp [h1, ticker_call_vars, vget, py_str, analysis_call]

theorem foldl_defaults_of_present (ovs : List (String × String)) (vars : Vars)
    (h : ∀ p ∈ ovs, hasKey vars p.1 = true) :
    ovs.foldl (fun vs p => if hasKey vs p.1 then vs else vset vs p.1 p.2) vars = vars := by
  induction ovs with
  | nil => rfl
  | cons p rest ih =>
    have hp : hasKey vars p.1 = true := h p (by simp)
    simp only [List.foldl_cons, hp, if_true]
    exact ih (fun q hq => h q (by simp [hq]))

/-- Claim C8, counterexample: one `process_template` call on the
`prediction_analysis` template with only `prediction_text` supplied leaves the
caller's variables mapping changed (the `industry_list` optional default has
been inserted into it), refuting the claim that the mapping is the same after
the call as before it. -/
theorem C8_counterexample :
    (process_template (Except.ok "parsed") prediction_analysis_template
        [("prediction_text", "x")] "gpt-4o-mini").2.1 ≠ [("prediction_text", "x")] := by
  decide

/-- Claim C8, amended: one `process_template` call mutates no caller-visible
state other than inserting defaults for optional template variables the
caller did not supply; when every optional variable of the template is
already present in the caller's mapping, the mapping is unchanged after the
call. -/
theorem C8_no_mutation_when_optionals_supplied {α : Type} (outcome : Except String α)
    (template : Template) (vars : Vars) (model : String)
    (hopt : ∀ p ∈ template.optional_vars, hasKey vars p.1 = true) :
    (process_template outcome template vars model).2.1 = vars := by
  have hval : (∃ msg, validate_variables template vars = Except.error msg) ∨
      validate_variables template vars = Except.ok vars := by
    cases hm : (template.required_vars.filter (fun v => !(hasKey vars v))).isEmpty with
    | false =>
      exact Or.inl ⟨"Missing required variables: " ++
        String.intercalate ", " (template.required_vars.filter (fun v => !(hasKey vars v))),
        by simp [validate_variables, hm]⟩
    | true =>
      exact Or.inr (by
        simp [validate_variables, hm,
          foldl_defaults_of_present template.optional_vars vars hopt])
  rcases hval with ⟨msg, hv⟩ | hv
  · simp [process_template, hv]
  · cases hf : format_prompt template vars with
    | error e => simp [process_template, hv, hf]
    | ok fp => cases outcome <;> simp [process_template, hv, hf]

theorem C8_witness :
    (∀ p ∈ ticker_finder_template.optional_vars,
       hasKey [("prediction_text", "x"), ("prediction_analysis", "pa"),
               ("web_research", "w"), ("industry_list", "il")] p.1 = true) ∧
    (process_template (Except.ok "parsed") ticker_finder_template
        [("prediction_text", "x"), ("prediction_analysis", "pa"),
         ("web_research", "w"), ("industry_list", "il")] "gpt-4o-mini").2.1 =
      [("prediction_text", "x"), ("prediction_analysis", "pa"),
       ("web_research", "w"), ("industry_list", "il")] :=
  ⟨by decide,
   C8_no_mutation_when_optionals_supplied (Except.ok "parsed") ticker_finder_template
     [("prediction_text", "x"), ("prediction_analysis", "pa"),
      ("web_research", "w"), ("industry_list", "il")] "gpt-4o-mini" (by decide)⟩

/-- Claim C9, counterexample: the envelope `PerplexityService.search` returns
for an HTTP status error is a failure envelope (success false, error string
present) whose `content` key is absent — it does not carry a `content` field
with value null, refuting the claim. -/
theorem C9_counterexample :
    ((PerplexityService.search (HttpOutcome.statusError 500 none) "q" "sonar"
        ⟨[], []⟩).1.success = false) ∧
    ((PerplexityService.search (HttpOutcome.statusError 500 none) "q" "sonar"
        ⟨[], []⟩).1.error = DictField.present "HTTP error: 500") ∧
    ((PerplexityService.search (HttpOutcome.statusError 500 none) "q" "sonar"
        ⟨[], []⟩).1.content ≠ DictField.present none) := by
  refine ⟨rfl, rfl, ?_⟩
  decide

/-- Claim C9, amended: every failure envelope of the Research Invoker's
search operation (HTTP status error, transport error, or unexpected
exception) carries success=false and an error string but omits the `content`
key entirely; only success envelopes carry `content` (whose value may itself
be null). -/
theorem C9_envelope_shape (code : Nat) (body : Option String) (msg q mdl : String)
    (log : Log) (c : Option String) :
    ((PerplexityService.search (HttpOutcome.statusError code body) q mdl log).1.success = false ∧
     (PerplexityService.search (HttpOutcome.statusError code body) q mdl log).1.content =
       DictField.absent ∧
     (PerplexityService.search (HttpOutcome.statusError code body) q mdl log).1.error =
       DictField.present ("HTTP error: " ++ toString code)) ∧
    ((PerplexityService.search (HttpOutcome.requestError msg) q mdl log).1.success = false ∧
     (PerplexityService.search (HttpOutcome.requestError msg) q mdl log).1.content =
       DictField.absent ∧
     (PerplexityService.search (HttpOutcome.requestError msg) q mdl log).1.error =
       DictField.present ("Request error: " ++ msg)) ∧
    ((PerplexityService.search (HttpOutcome.unexpected msg) q mdl log).1.success = false ∧
     (PerplexityService.search (HttpOutcome.unexpected msg) q mdl log).1.content =
       DictField.absent ∧
     (PerplexityService.search (HttpOutcome.unexpected msg) q mdl log).1.error =
       DictField.present ("Unexpected error: " ++ msg)) ∧
    ((PerplexityService.search (HttpOutcome.ok c) q mdl log).1.success = true ∧
     (PerplexityService.search (HttpOutcome.ok c) q mdl log).1.content =
       DictField.present c ∧
     (PerplexityService.search (HttpOutcome.ok c) q mdl log).1.error = DictField.absent) :=
  ⟨⟨rfl, rfl, rfl⟩, ⟨rfl, rfl, rfl⟩, ⟨rfl, rfl, rfl⟩, ⟨rfl, rfl, rfl⟩⟩

/-- Claim C10: for every job identifier not present in the job table, the Job
Tracker's internal `_update_status` is a silent no-op: it returns normally (it
is a total function) and the job table is unchanged. -/
theorem C10_unknown_id_noop (table : JobTable) (prediction_id : String) (e : UpdateEvent)
    (now : Nat) (h : table.lookup prediction_id = none) :
    PredictionQueueManager.update_status table prediction_id e now = table := by
  unfold PredictionQueueManager.update_status
  rw [h]
  rfl

theorem C10_witness :
    (([("job-a", PredictionQueueManager.create_record "job-a" 0)] : JobTable).lookup
        "job-b" = none) ∧
    PredictionQueueManager.update_status
        [("job-a", PredictionQueueManager.create_record "job-a" 0)] "job-b"
        (fail_event "x") 3 =
      [("job-a", PredictionQueueManager.create_record "job-a" 0)] :=
  ⟨by decide,
   C10_unknown_id_noop [("job-a", PredictionQueueManager.create_record "job-a" 0)]
     "job-b" (fail_event "x") 3 (by decide)⟩

def orc_research_down : Oracles :=
  ⟨Except.ok test_analysis, fun _ => HttpOutcome.requestError "provider down",
   Except.ok "T", Except.ok "S", none⟩

theorem C4_witness :
    (opts_research.use_web_search = some true) ∧
    (∀ n c, orc_research_down.researchO n ≠ HttpOutcome.ok c) ∧
    (∃ r, ((job_states orc_research_down "job-1" "pred" opts_research
              (fun k => k)).getLastD
            (PredictionQueueManager.create_record "job-1" 0)).status =
          PredictionStatus.COMPLETED ∧
         ((job_states orc_research_down "job-1" "pred" opts_research
              (fun k => k)).getLastD
            (PredictionQueueManager.create_record "job-1" 0)).result = some r ∧
         r.market_research = none) :=
  ⟨rfl, by intro n c; simp [orc_research_down],
   C4_research_nonfatal orc_research_down "job-1" "pred" opts_research (fun k => k)
     test_analysis "T" "S" rfl (by intro n c; simp [orc_research_down]) rfl rfl rfl⟩

def orc_analysis_boom : Oracles :=
  ⟨Except.error "boom", fun _ => HttpOutcome.requestError "x",
   Except.ok "T", Except.ok "S", none⟩

theorem C5_witness :
    (orc_analysis_boom.analysisO = Except.error "boom") ∧
    (((job_states orc_analysis_boom "job-1" "pred" opts_research
          (fun k => k)).getLastD
        (PredictionQueueManager.create_record "job-1" 0)).status =
      PredictionStatus.FAILED ∧
    (∃ pre, ((job_states orc_analysis_boom "job-1" "pred" opts_research
          (fun k => k)).getLastD
        (PredictionQueueManager.create_record "job-1" 0)).message = pre ++ "boom") ∧
    ((PredictionQueueManager.process_prediction orc_analysis_boom "pred"
        opts_research).2.openai.filter
       (fun c => c.template_name = "ticker_finder")).length = 0 ∧
    ((PredictionQueueManager.process_prediction orc_analysis_boom "pred"
        opts_research).2.openai.filter
       (fun c => c.template_name = "investment_strategy")).length = 0) :=
  ⟨rfl, C5_analysis_failure_fatal orc_analysis_boom "job-1" "pred" opts_research
    (fun k => k) "boom" rfl⟩

theorem C6_witness :
    (opts_research.use_web_search = some true) ∧
    (orc_two_research.analysisO = Except.ok test_analysis) ∧
    ((PredictionQueueManager.process_prediction orc_two_research "pred"
        opts_research).2.research.length = 2 ∧
     ((PredictionQueueManager.process_prediction orc_two_research "pred"
        opts_research).2.openai.filter
        (fun c => c.template_name = "ticker_finder")).map
        (fun c => vget c.vars "web_research") =
      [some (match orc_two_research.researchO 1 with
             | HttpOutcome.ok c => "Web Research Results:\n\n" ++ py_str c
             | _ => "")]) :=
  ⟨rfl, rfl,
   C6_amended_fresh_research orc_two_research "pred" opts_research test_analysis rfl rfl⟩
